import Mathlib

/-!
Shallow embedding of the attendance subsystem of the NDMA training backend
(`auth-server.js` together with the mongoose schemas in `models/`).

The document database is modelled as explicit lists of documents; each HTTP
handler becomes a pure function from a database state (plus the request
parameters) to an `Except ApiError` result carrying the updated state.
JavaScript falsiness of strings (only `""` and absent values are falsy) is
modelled by `jsOrS` / `jsOrOpt` / `jsOrInt`; absent request fields are
`Option`s.  Timestamps are opaque `Nat` clock values passed in by the caller,
and Mongo ObjectIds are `Nat` identifiers drawn from a `nextId` counter.
-/

namespace NDMA

/-- Check-in mode of a session (`mode` enum in the AttendanceSession schema). -/
inductive Mode
  | hotspot | ble | gps | manual
deriving DecidableEq, Repr

/-- Session lifecycle status (`status` enum in the AttendanceSession schema). -/
inductive SessionStatus
  | active | completed | expired
deriving DecidableEq, Repr

/-- Report review status (`status` enum in the Report schema). -/
inductive ReportStatus
  | draft | pending | accepted | rejected
deriving DecidableEq, Repr

/-- GeoJSON-style point with optional accuracy; coordinate values are opaque
for the properties considered here, so they are embedded as integers. -/
structure GeoPoint where
  longitude : Int
  latitude : Int
  accuracy : Option Int := none
deriving DecidableEq, Repr

/-- `device_meta` audit block of an attendance record (all opaque strings). -/
structure DeviceMeta where
  device_id : Option String := none
  device_name : Option String := none
  os : Option String := none
  app_version : Option String := none
  connected_ssid : Option String := none
  mac_address : Option String := none
deriving DecidableEq, Repr

/-- Trainer metadata stored on a session at creation time. -/
structure SessionMeta where
  trainer_device : Option String := none
  trainer_ip : Option String := none
  location : Option GeoPoint := none
deriving DecidableEq, Repr

/-- An AttendanceSession document. -/
structure AttendanceSession where
  id : Nat
  training_id : String
  trainer_id : Nat
  session_token : String
  mode : Mode
  radius_m : Int
  hotspot_ssid : Option String
  started_at : Nat
  ended_at : Option Nat
  status : SessionStatus
  metadata : SessionMeta
deriving DecidableEq, Repr

/-- An AttendanceRecord document. -/
structure AttendanceRecord where
  id : Nat
  session_id : Nat
  training_id : String
  user_id : Nat
  user_name : String
  user_phone : Option String
  method : Mode
  timestamp : Nat
  device_meta : Option DeviceMeta
  location : Option GeoPoint
  synced : Bool
  verified : Bool
deriving DecidableEq, Repr

/-- A User document, restricted to the projection the attendance code reads
(`name phone age_bracket district state` plus `organization`). -/
structure UserDoc where
  id : Nat
  name : String
  phone : Option String
  age_bracket : Option String
  district : Option String
  state : Option String
  organization : String
deriving DecidableEq, Repr

/-- One frozen entry of a report's `attendanceDetails` snapshot. -/
structure AttendanceDetail where
  traineeId : Option Nat
  traineeName : String
  traineePhone : String
  traineeAge : String
  traineeDistrict : String
  traineeState : String
  markedAt : Nat
  method : Mode
deriving DecidableEq, Repr

/-- A Report document, restricted to the fields the attendance and analytics
code reads or writes. -/
structure ReportDoc where
  id : Nat
  userId : Nat
  userOrganization : String
  trainingType : String
  participants : Int
  hasLiveAttendance : Bool
  attendanceSessionId : Option Nat
  attendanceCount : Nat
  attendanceDetails : List AttendanceDetail
  status : ReportStatus
  createdAt : Nat
  updatedAt : Nat
deriving DecidableEq, Repr

/-- An append-only audit log entry (`createAuditLog`). -/
structure AuditEntry where
  action : String
  actor_id : Nat
  entity_id : Nat
deriving DecidableEq, Repr

/-- Authenticated request identity decoded from the bearer token. -/
structure AuthUser where
  id : Nat
  name : String
  email : String
  phone : Option String
  role : String
deriving DecidableEq, Repr

/-- The document database state shared by all handlers. -/
structure DB where
  sessions : List AttendanceSession
  records : List AttendanceRecord
  reports : List ReportDoc
  users : List UserDoc
  auditLog : List AuditEntry
  nextId : Nat
deriving DecidableEq, Repr

/-- Error envelope a handler can return (`{success:false, error}`). -/
inductive ApiError
  | badRequest (msg : String)
  | notFound (msg : String)
deriving DecidableEq, Repr

/-- HTTP status code carried by an error envelope. -/
def ApiError.toStatus : ApiError → Nat
  | .badRequest _ => 400
  | .notFound _ => 404

/-- JavaScript `a || b` for a possibly-absent string `a` (absent and `""` are
falsy). -/
def jsOrS (a : Option String) (b : String) : String :=
  match a with
  | some s => if s = "" then b else s
  | none => b

/-- JavaScript `a || b` where both sides are possibly-absent strings. -/
def jsOrOpt (a b : Option String) : Option String :=
  match a with
  | some s => if s = "" then b else some s
  | none => b

/-- JavaScript `a || d` for a possibly-absent number `a` (absent and `0` are
falsy). -/
def jsOrInt (a : Option Int) (d : Int) : Int :=
  match a with
  | some v => if v = 0 then d else v
  | none => d

/-- `AttendanceSession.findOne({ session_token })`. -/
def findSessionByToken (db : DB) (tok : String) : Option AttendanceSession :=
  db.sessions.find? (fun s => decide (s.session_token = tok))

/-- `AttendanceSession.findOne({ session_token, status: 'active' })`. -/
def findActiveSession (db : DB) (tok : String) : Option AttendanceSession :=
  db.sessions.find? (fun s => decide (s.session_token = tok ∧ s.status = SessionStatus.active))

/-- The duplicate-check predicate: does a record carry this
`(session_id, user_id)` pair? -/
def pairPred (sid uid : Nat) (r : AttendanceRecord) : Bool :=
  decide (r.session_id = sid ∧ r.user_id = uid)

/-- `AttendanceRecord.findOne({ session_id, user_id })`. -/
def findPairRecord (records : List AttendanceRecord) (sid uid : Nat) :
    Option AttendanceRecord :=
  records.find? (pairPred sid uid)

/-- `User.findById`. -/
def findUserById (users : List UserDoc) (uid : Nat) : Option UserDoc :=
  users.find? (fun u => decide (u.id = uid))

/-- `Report.findById` (by document id). -/
def findReportById (db : DB) (rid : Nat) : Option ReportDoc :=
  db.reports.find? (fun rp => decide (rp.id = rid))

/-- `mode` strings accepted by `POST /api/attendance/sessions`
(the `['hotspot','ble','gps','manual'].includes(mode)` check). -/
def parseMode : String → Option Mode
  | "hotspot" => some Mode.hotspot
  | "ble" => some Mode.ble
  | "gps" => some Mode.gps
  | "manual" => some Mode.manual
  | _ => none

/-- `POST /api/attendance/sessions`: create an attendance session.  The random
`session_token` generation is modelled by the explicit `session_token`
argument; `now` models `Date.now()`. -/
def createSession (db : DB) (user : AuthUser) (training_id mode : String)
    (radius_m : Option Int) (hotspot_ssid : Option String)
    (meta : SessionMeta) (session_token : String) (now : Nat) :
    Except ApiError (DB × AttendanceSession) :=
  if training_id = "" ∨ mode = "" then
    .error (.badRequest "training_id and mode are required")
  else
    match parseMode mode with
    | none => .error (.badRequest "Invalid mode. Must be hotspot, ble, gps, or manual")
    | some m =>
      let s : AttendanceSession :=
        { id := db.nextId
          training_id := training_id
          trainer_id := user.id
          session_token := session_token
          mode := m
          radius_m := jsOrInt radius_m 30
          hotspot_ssid := hotspot_ssid
          started_at := now
          ended_at := none
          status := SessionStatus.active
          metadata := meta }
      let db' : DB :=
        { db with
          sessions := db.sessions ++ [s]
          nextId := db.nextId + 1
          auditLog := db.auditLog ++
            [{ action := "attendance_session_started", actor_id := user.id, entity_id := s.id }] }
      .ok (db', s)

/-- `PUT /api/attendance/sessions/:session_token/end`: looks the session up by
token only — the handler never compares `req.user.id` with the session's
`trainer_id` — then sets `status := completed` and `ended_at`. -/
def endSession (db : DB) (user : AuthUser) (session_token : String) (now : Nat) :
    Except ApiError DB :=
  match findSessionByToken db session_token with
  | none => .error (.notFound "Session not found")
  | some s =>
    .ok { db with
          sessions := db.sessions.map (fun t =>
            if t.id = s.id then
              { t with status := SessionStatus.completed, ended_at := some now }
            else t)
          auditLog := db.auditLog ++
            [{ action := "attendance_session_ended", actor_id := user.id, entity_id := s.id }] }

/-- Request body of `POST /api/attendance/sessions/:session_token/mark`. -/
structure MarkBody where
  user_name : Option String := none
  user_phone : Option String := none
  method : Option Mode := none
  device_meta : Option DeviceMeta := none
  location : Option GeoPoint := none
deriving DecidableEq, Repr

/-- Construction and save of the new AttendanceRecord on the single-record
mark path (the code after the duplicate check in the mark handler). -/
def markInsert (db : DB) (s : AttendanceSession) (user : AuthUser)
    (body : MarkBody) (now : Nat) : DB × AttendanceRecord :=
  let r0 : AttendanceRecord :=
    { id := db.nextId
      session_id := s.id
      training_id := s.training_id
      user_id := user.id
      user_name := jsOrS body.user_name user.name
      user_phone := jsOrOpt body.user_phone user.phone
      method := body.method.getD s.mode
      timestamp := now
      device_meta := body.device_meta
      location := body.location
      synced := true
      verified := false }
  ({ db with
     records := db.records ++ [r0]
     nextId := db.nextId + 1
     auditLog := db.auditLog ++
       [{ action := "attendance_marked", actor_id := user.id, entity_id := r0.id }] }, r0)

/-- `POST /api/attendance/sessions/:session_token/mark`: requires an *active*
session, rejects a duplicate `(session_id, user_id)` pair with a 400, then
inserts. `findActiveSession`, `findPairRecord` and `markInsert` are the three
sequential database operations of the handler. -/
def markAttendance (db : DB) (session_token : String) (user : AuthUser)
    (body : MarkBody) (now : Nat) : Except ApiError (DB × AttendanceRecord) :=
  match findActiveSession db session_token with
  | none => .error (.notFound "Session not found or expired")
  | some s =>
    match findPairRecord db.records s.id user.id with
    | some _ => .error (.badRequest "Attendance already marked for this session")
    | none => .ok (markInsert db s user body now)

/-- One element of the `records` array sent to the batch endpoint. -/
structure BatchRecordInput where
  user_id : Nat
  user_name : String
  user_phone : Option String := none
  method : Option Mode := none
  timestamp : Option Nat := none
  device_meta : Option DeviceMeta := none
  location : Option GeoPoint := none
deriving DecidableEq, Repr

/-- The AttendanceRecord constructed for one batch input record. -/
def mkBatchRecord (s : AttendanceSession) (now : Nat) (id : Nat)
    (r : BatchRecordInput) : AttendanceRecord :=
  { id := id
    session_id := s.id
    training_id := s.training_id
    user_id := r.user_id
    user_name := r.user_name
    user_phone := r.user_phone
    method := r.method.getD s.mode
    timestamp := r.timestamp.getD now
    device_meta := r.device_meta
    location := r.location
    synced := true
    verified := false }

/-- A per-record failure entry in the batch response's `details`. -/
structure BatchError where
  user_id : Nat
  error : String
deriving DecidableEq, Repr

/-- Loop state of the batch handler (`inserted` and `errors` arrays plus the
evolving database). -/
structure BatchAcc where
  db : DB
  inserted : List Nat
  errors : List BatchError
deriving DecidableEq, Repr

/-- One iteration of the batch loop: check `(session_id, user_id)` against the
current records (including ones inserted earlier in the same batch), either
record a duplicate error or insert. -/
def batchStep (s : AttendanceSession) (now : Nat) (acc : BatchAcc)
    (r : BatchRecordInput) : BatchAcc :=
  match findPairRecord acc.db.records s.id r.user_id with
  | some _ =>
    { acc with errors := acc.errors ++ [{ user_id := r.user_id, error := "Duplicate attendance" }] }
  | none =>
    let newRec := mkBatchRecord s now acc.db.nextId r
    { acc with
      db := { acc.db with
              records := acc.db.records ++ [newRec]
              nextId := acc.db.nextId + 1 }
      inserted := acc.inserted ++ [newRec.id] }

/-- JSON body of a successful batch response. -/
structure BatchResponse where
  inserted : Nat
  errors : Nat
  details : Option (List BatchError)
deriving DecidableEq, Repr

/-- `POST /api/attendance/sessions/:session_token/batch`: rejects an empty
`records` array, looks the session up by token *without* any status filter,
then processes each record independently, collecting per-record errors. -/
def batchUploadAttendance (db : DB) (session_token : String)
    (records : List BatchRecordInput) (now : Nat) :
    Except ApiError (DB × BatchResponse) :=
  if records.isEmpty then
    .error (.badRequest "records array is required and cannot be empty")
  else
    match findSessionByToken db session_token with
    | none => .error (.notFound "Session not found")
    | some s =>
      let acc := records.foldl (batchStep s now) { db := db, inserted := [], errors := [] }
      .ok (acc.db,
        { inserted := acc.inserted.length
          errors := acc.errors.length
          details := if acc.errors.length > 0 then some acc.errors else none })

/-- JavaScript `a || b` on two plain strings (`""` falsy). -/
def jsOrS0 (a b : String) : String :=
  if a = "" then b else a

/-- Flatten an optional string field reached through `?.` (an absent document
or field reads as `undefined`, which the `|| ''` fallbacks turn into `""`). -/
def optStr (o : Option String) : String :=
  o.getD ""

/-- One entry of the attendance snapshot built by the link and create-report
paths: populate the record's `user_id`, falling back to the record's own
denormalized copies (`record.user_name || record.user_id?.name || 'Unknown'`
and so on). -/
def buildDetail (users : List UserDoc) (r : AttendanceRecord) : AttendanceDetail :=
  let u := findUserById users r.user_id
  { traineeId := u.map (fun x => x.id)
    traineeName := jsOrS0 r.user_name (jsOrS0 (optStr (u.map (fun x => x.name))) "Unknown")
    traineePhone := jsOrS0 (optStr r.user_phone) (optStr (u.bind (fun x => x.phone)))
    traineeAge := optStr (u.bind (fun x => x.age_bracket))
    traineeDistrict := optStr (u.bind (fun x => x.district))
    traineeState := optStr (u.bind (fun x => x.state))
    markedAt := r.timestamp
    method := r.method }

/-- `AttendanceRecord.find({ session_id })`. -/
def sessionRecords (db : DB) (sid : Nat) : List AttendanceRecord :=
  db.records.filter (fun r => decide (r.session_id = sid))

/-- The field update `findByIdAndUpdate` applies to the report when linking a
session: snapshot fields plus `participants` overwritten by the attendance
count. -/
def linkUpdate (sid : Nat) (n : Nat) (details : List AttendanceDetail)
    (now : Nat) (rp : ReportDoc) : ReportDoc :=
  { rp with
    hasLiveAttendance := true
    attendanceSessionId := some sid
    attendanceCount := n
    attendanceDetails := details
    participants := (n : Int)
    updatedAt := now }

/-- `POST /api/reports/:reportId/link-attendance`: requires a `session_token`
in the body, fails with 404 when the session or the report is unknown, and
otherwise rebuilds the report's attendance snapshot from the session's
records. -/
def linkAttendance (db : DB) (reportId : Nat) (session_token : String)
    (now : Nat) : Except ApiError (DB × ReportDoc) :=
  if session_token = "" then
    .error (.badRequest "session_token is required")
  else
    match findSessionByToken db session_token with
    | none => .error (.notFound "Attendance session not found")
    | some s =>
      let recs := sessionRecords db s.id
      let details := recs.map (buildDetail db.users)
      match findReportById db reportId with
      | none => .error (.notFound "Report not found")
      | some rp =>
        let rp' := linkUpdate s.id recs.length details now rp
        .ok ({ db with
               reports := db.reports.map (fun q =>
                 if q.id = reportId then linkUpdate s.id recs.length details now q else q) },
             rp')

/-- Request body of `POST /api/reports/create`, restricted to the fields the
attendance subsystem touches. -/
structure CreateReportBody where
  trainingType : String
  location : String
  date : String
  participants : Option Int := none
  session_token : Option String := none
deriving DecidableEq, Repr

/-- `POST /api/reports/create` step one: the fresh report document before the
optional attendance auto-link (organization falls back to `'NDMA'` when the
creator's user document is missing). -/
def newReportBase (db : DB) (user : AuthUser) (body : CreateReportBody)
    (now : Nat) : ReportDoc :=
  { id := db.nextId
    userId := user.id
    userOrganization :=
      match findUserById db.users user.id with
      | some u => u.organization
      | none => "NDMA"
    trainingType := body.trainingType
    participants := jsOrInt body.participants 0
    hasLiveAttendance := false
    attendanceSessionId := none
    attendanceCount := 0
    attendanceDetails := []
    status := ReportStatus.draft
    createdAt := now
    updatedAt := now }

/-- `POST /api/reports/create` continued: the optional attendance auto-link
applied to the fresh report (the `if (session_token)` block); a token matching
no session leaves the report untouched (warning log only). -/
def autoLink (db : DB) (body : CreateReportBody) (base : ReportDoc) : ReportDoc :=
  match body.session_token with
  | none => base
  | some tok =>
    match findSessionByToken db tok with
    | none => base
    | some s =>
      let recs := sessionRecords db s.id
      { base with
        hasLiveAttendance := true
        attendanceSessionId := some s.id
        attendanceCount := recs.length
        attendanceDetails := recs.map (buildDetail db.users)
        participants := (recs.length : Int) }

/-- `POST /api/reports/create` top level: validate, build, optionally
auto-link, save. -/
def createReport (db : DB) (user : AuthUser) (body : CreateReportBody)
    (now : Nat) : Except ApiError (DB × ReportDoc) :=
  if body.trainingType = "" ∨ body.location = "" ∨ body.date = "" then
    .error (.badRequest "Required fields: trainingType, location, date")
  else
    let newReport := autoLink db body (newReportBase db user body now)
    .ok ({ db with reports := db.reports ++ [newReport], nextId := db.nextId + 1 }, newReport)

/-- Count of reports carrying one given status
(`reports.filter(r => r.status === ...).length`). -/
def statusCount (reports : List ReportDoc) (st : ReportStatus) : Nat :=
  (reports.filter (fun r => decide (r.status = st))).length

/-- The grouping key of the organization breakdown
(`r.userOrganization || 'Unknown'`). -/
def orgKey (r : ReportDoc) : String :=
  jsOrS0 r.userOrganization "Unknown"

/-- The organization breakdown of `GET /api/reports/analytics` as a list of
`(organization, count)` pairs, one per distinct key. -/
def organizationCounts (reports : List ReportDoc) : List (String × Nat) :=
  ((reports.map orgKey).dedup).map (fun k => (k, (reports.map orgKey).count k))

/-- The deduplication invariant: at most one AttendanceRecord exists per
`(session_id, user_id)` pair. -/
def atMostOnePerPair (db : DB) : Prop :=
  ∀ sid uid : Nat, db.records.countP (pairPred sid uid) ≤ 1

/-- One complete (sequential) call of an attendance-writing endpoint. -/
inductive AttOp
  | mark (session_token : String) (user : AuthUser) (body : MarkBody) (now : Nat)
  | batch (session_token : String) (records : List BatchRecordInput) (now : Nat)
deriving Repr

/-- Run one endpoint call to completion; a failed call leaves the state
unchanged. -/
def execOp (db : DB) (op : AttOp) : DB :=
  match op with
  | .mark tok user body now =>
    match markAttendance db tok user body now with
    | .ok (db', _) => db'
    | .error _ => db
  | .batch tok records now =>
    match batchUploadAttendance db tok records now with
    | .ok (db', _) => db'
    | .error _ => db

/-- Run a sequence of endpoint calls, each one atomically (no interleaving). -/
def execOps (db : DB) (ops : List AttOp) : DB :=
  ops.foldl execOp db

/-- A trainee identity used in the concurrent-mark schedule below. -/
def raceUser : AuthUser :=
  { id := 7, name := "Trainee", email := "trainee@example.org", phone := none, role := "user" }

/-- An active session used in the concurrent-mark schedule below. -/
def raceSession : AttendanceSession :=
  { id := 0
    training_id := "tr1"
    trainer_id := 1
    session_token := "sess_race"
    mode := Mode.manual
    radius_m := 30
    hotspot_ssid := none
    started_at := 0
    ended_at := none
    status := SessionStatus.active
    metadata := {} }

/-- Initial state of the concurrent-mark schedule: one active session and no
records. -/
def raceDb0 : DB :=
  { sessions := [raceSession], records := [], reports := [], users := [],
    auditLog := [], nextId := 1 }

/-- State after the first of two interleaved mark requests commits its insert
(both requests passed `findActiveSession` and `findPairRecord` on `raceDb0`
before either insert committed). -/
def raceDb1 : DB :=
  (markInsert raceDb0 raceSession raceUser {} 5).1

/-- State after the second interleaved mark request also commits its insert. -/
def raceDb2 : DB :=
  (markInsert raceDb1 raceSession raceUser {} 6).1

/-- Appending a record whose `(session_id, user_id)` pair is absent keeps
every pair count at most one. -/
theorem countP_pair_append_fresh (records : List AttendanceRecord)
    (r0 : AttendanceRecord)
    (hinv : ∀ sid uid : Nat, records.countP (pairPred sid uid) ≤ 1)
    (hfresh : findPairRecord records r0.session_id r0.user_id = none) :
    ∀ sid uid : Nat, (records ++ [r0]).countP (pairPred sid uid) ≤ 1 := by
  intro sid uid
  have hfresh' : records.find? (pairPred r0.session_id r0.user_id) = none := hfresh
  rw [List.countP_append, List.countP_singleton]
  by_cases hp : pairPred sid uid r0 = true
  · have hpair : r0.session_id = sid ∧ r0.user_id = uid := by
      simpa [pairPred] using hp
    have hzero : records.countP (pairPred sid uid) = 0 := by
      rw [List.countP_eq_zero]
      intro a ha
      have hnone := List.find?_eq_none.mp hfresh' a ha
      rw [← hpair.1, ← hpair.2]
      exact hnone
    simp [hzero, hp]
  · rw [if_neg hp]
    simpa using hinv sid uid

/-- The records list after `markInsert` is the old list with the new record
appended. -/
theorem markInsert_records (db : DB) (s : AttendanceSession) (user : AuthUser)
    (body : MarkBody) (now : Nat) :
    ((markInsert db s user body now).1).records =
      db.records ++ [(markInsert db s user body now).2] := rfl

/-- A successful single-record mark preserves the deduplication invariant. -/
theorem markAttendance_preserves_dedup (db : DB) (tok : String)
    (user : AuthUser) (body : MarkBody) (now : Nat) (db' : DB)
    (r : AttendanceRecord) (hinv : atMostOnePerPair db)
    (hok : markAttendance db tok user body now = .ok (db', r)) :
    atMostOnePerPair db' := by
  cases hsess : findActiveSession db tok with
  | none =>
    simp only [markAttendance, hsess] at hok
    exact Except.noConfusion hok
  | some s =>
    cases hdup : findPairRecord db.records s.id user.id with
    | some x =>
      simp only [markAttendance, hsess, hdup] at hok
      exact Except.noConfusion hok
    | none =>
      have hrun : markAttendance db tok user body now =
          .ok (markInsert db s user body now) := by
        simp only [markAttendance, hsess, hdup]
      rw [hrun] at hok
      injection hok with h
      have hdb : db' = (markInsert db s user body now).1 := by rw [h]
      rw [hdb]
      intro sid uid
      exact countP_pair_append_fresh db.records _ hinv hdup sid uid

/-- One batch iteration preserves the per-pair bound on the evolving records
list. -/
theorem batchStep_preserves_dedup (s : AttendanceSession) (now : Nat)
    (acc : BatchAcc) (r : BatchRecordInput)
    (hinv : ∀ sid uid : Nat, acc.db.records.countP (pairPred sid uid) ≤ 1) :
    ∀ sid uid : Nat,
      ((batchStep s now acc r).db).records.countP (pairPred sid uid) ≤ 1 := by
  cases hdup : findPairRecord acc.db.records s.id r.user_id with
  | some x =>
    simp only [batchStep, hdup]
    exact hinv
  | none =>
    simp only [batchStep, hdup]
    exact countP_pair_append_fresh _ _ hinv hdup

/-- The whole batch loop preserves the per-pair bound. -/
theorem batch_foldl_preserves_dedup (s : AttendanceSession) (now : Nat) :
    ∀ (records : List BatchRecordInput) (acc : BatchAcc),
      (∀ sid uid : Nat, acc.db.records.countP (pairPred sid uid) ≤ 1) →
      ∀ sid uid : Nat,
        ((records.foldl (batchStep s now) acc).db).records.countP
          (pairPred sid uid) ≤ 1 := by
  intro records
  induction records with
  | nil => intro acc h; simpa using h
  | cons r rs ih =>
    intro acc h
    exact ih (batchStep s now acc r) (batchStep_preserves_dedup s now acc r h)

/-- A successful batch upload preserves the deduplication invariant. -/
theorem batchUpload_preserves_dedup (db : DB) (tok : String)
    (records : List BatchRecordInput) (now : Nat) (db' : DB)
    (resp : BatchResponse) (hinv : atMostOnePerPair db)
    (hok : batchUploadAttendance db tok records now = .ok (db', resp)) :
    atMostOnePerPair db' := by
  by_cases hemp : records.isEmpty
  · simp only [batchUploadAttendance, if_pos hemp] at hok
    exact Except.noConfusion hok
  · cases hsess : findSessionByToken db tok with
    | none =>
      simp only [batchUploadAttendance, if_neg hemp, hsess] at hok
      exact Except.noConfusion hok
    | some s =>
      simp only [batchUploadAttendance, if_neg hemp, hsess, Except.ok.injEq,
        Prod.mk.injEq] at hok
      obtain ⟨h1, h2⟩ := hok
      rw [← h1]
      exact batch_foldl_preserves_dedup s now records _ (fun sid uid => hinv sid uid)

/-- Any single endpoint call, run to completion, preserves the deduplication
invariant. -/
theorem execOp_preserves_dedup (db : DB) (op : AttOp)
    (hinv : atMostOnePerPair db) : atMostOnePerPair (execOp db op) := by
  cases op with
  | mark tok user body now =>
    simp only [execOp]
    cases hok : markAttendance db tok user body now with
    | ok pr => exact markAttendance_preserves_dedup db tok user body now pr.1 pr.2 hinv hok
    | error e => exact hinv
  | batch tok records now =>
    simp only [execOp]
    cases hok : batchUploadAttendance db tok records now with
    | ok pr => exact batchUpload_preserves_dedup db tok records now pr.1 pr.2 hinv hok
    | error e => exact hinv

/-- C1 (counterexample): the deduplication invariant does not survive
concurrent submission.  Both interleaved mark requests for the pair
`(raceSession.id, raceUser.id)` pass the handler's `findActiveSession` and
`findPairRecord` reads against `raceDb0` before either insert commits; after
both inserts commit (`raceDb2`) the pair owns two records, so "at most one
record per (session_id, user_id)" fails under this concurrent schedule. -/
theorem mark_race_breaks_dedup :
    findActiveSession raceDb0 "sess_race" = some raceSession ∧
    findPairRecord raceDb0.records raceSession.id raceUser.id = none ∧
    raceDb2.records.countP (pairPred raceSession.id raceUser.id) = 2 ∧
    ¬ atMostOnePerPair raceDb2 := by
  refine ⟨by decide, by decide, by decide, fun h => ?_⟩
  have h2 := h raceSession.id raceUser.id
  have h3 : raceDb2.records.countP (pairPred raceSession.id raceUser.id) = 2 := by decide
  omega

/-- C1 (amended): after any sequence of markAttendance and
batchUploadAttendance calls, each run sequentially to completion, at most one
AttendanceRecord exists per `(session_id, user_id)` pair, provided the
invariant held initially; the concurrent-interleaving part of the claim fails
(see the counterexample). -/
theorem sequential_ops_at_most_one_per_pair (db : DB) (ops : List AttOp)
    (hinv : atMostOnePerPair db) : atMostOnePerPair (execOps db ops) := by
  induction ops generalizing db with
  | nil => exact hinv
  | cons op rest ih =>
    simp only [execOps, List.foldl_cons]
    exact ih (execOp db op) (execOp_preserves_dedup db op hinv)

/-- C1 (witness): the sequential theorem applied to a concrete empty state and
a concrete pair of mark calls for the same user. -/
theorem sequential_ops_at_most_one_per_pair_witness :
    atMostOnePerPair (execOps raceDb0
      [AttOp.mark "sess_race" raceUser {} 5, AttOp.mark "sess_race" raceUser {} 6]) :=
  sequential_ops_at_most_one_per_pair raceDb0
    [AttOp.mark "sess_race" raceUser {} 5, AttOp.mark "sess_race" raceUser {} 6]
    (fun sid uid => by simp [raceDb0, atMostOnePerPair])

/-- When the only session carrying a token is not active, the mark handler's
status-filtered lookup finds nothing. -/
theorem findActiveSession_eq_none_of_inactive (db : DB) (tok : String)
    (s : AttendanceSession)
    (hinactive : s.status ≠ SessionStatus.active)
    (huniq : ∀ t ∈ db.sessions, t.session_token = tok → t = s) :
    findActiveSession db tok = none := by
  rw [findActiveSession, List.find?_eq_none]
  intro t ht
  simp only [decide_eq_true_eq, not_and]
  intro htok hstat
  exact hinactive (huniq t ht htok ▸ hstat)

/-- C2: on a session whose status is not `active`, the live mark endpoint
fails with the 404 "Session not found or expired" envelope, while a batch
upload of a fresh record into the very same session succeeds and inserts the
record (the batch path never rechecks the session status). -/
theorem inactive_session_mark_fails_batch_succeeds
    (db : DB) (tok : String) (s : AttendanceSession) (user : AuthUser)
    (body : MarkBody) (r : BatchRecordInput) (now : Nat)
    (hfind : findSessionByToken db tok = some s)
    (hinactive : s.status ≠ SessionStatus.active)
    (huniq : ∀ t ∈ db.sessions, t.session_token = tok → t = s)
    (hfresh : findPairRecord db.records s.id r.user_id = none) :
    markAttendance db tok user body now =
      .error (.notFound "Session not found or expired") ∧
    (ApiError.notFound "Session not found or expired").toStatus = 404 ∧
    batchUploadAttendance db tok [r] now =
      .ok ({ db with
             records := db.records ++ [mkBatchRecord s now db.nextId r]
             nextId := db.nextId + 1 },
           { inserted := 1, errors := 0, details := none }) := by
  have hact := findActiveSession_eq_none_of_inactive db tok s hinactive huniq
  refine ⟨by simp only [markAttendance, hact], rfl, ?_⟩
  simp only [batchUploadAttendance, List.isEmpty_cons, Bool.false_eq_true, if_false,
    hfind, List.foldl_cons, List.foldl_nil, batchStep, hfresh]
  rfl

/-- C3: for an existing session and an existing report, link-attendance
succeeds and the returned report's `attendanceCount` equals the number of
AttendanceRecords whose `session_id` is that session, with `participants`
overwritten to the same value (and the details snapshot rebuilt from those
records). -/
theorem link_attendance_sets_counts
    (db : DB) (rid : Nat) (tok : String) (now : Nat)
    (s : AttendanceSession) (rp : ReportDoc)
    (htok : tok ≠ "")
    (hsess : findSessionByToken db tok = some s)
    (hrep : findReportById db rid = some rp) :
    ∃ db' rp', linkAttendance db rid tok now = .ok (db', rp') ∧
      rp'.attendanceCount = (sessionRecords db s.id).length ∧
      rp'.participants = ((sessionRecords db s.id).length : Int) ∧
      rp'.attendanceDetails = (sessionRecords db s.id).map (buildDetail db.users) ∧
      rp'.hasLiveAttendance = true := by
  refine ⟨{ db with reports := db.reports.map (fun q =>
        if q.id = rid then
          linkUpdate s.id (sessionRecords db s.id).length
            ((sessionRecords db s.id).map (buildDetail db.users)) now q
        else q) },
    linkUpdate s.id (sessionRecords db s.id).length
      ((sessionRecords db s.id).map (buildDetail db.users)) now rp,
    ?_, rfl, rfl, rfl, rfl⟩
  simp only [linkAttendance, if_neg htok, hsess, hrep]

/-- C4: a report created with a `session_token` that matches no session is
still created (silent skip): it lands in the store with
`hasLiveAttendance = false` and an empty attendance snapshot, while the
explicit link-attendance endpoint answers 404 "Attendance session not found"
for the same unknown token. -/
theorem create_report_unknown_session_silent_skip
    (db : DB) (user : AuthUser) (body : CreateReportBody) (now : Nat)
    (tok : String)
    (hty : body.trainingType ≠ "") (hloc : body.location ≠ "")
    (hdate : body.date ≠ "")
    (htokb : body.session_token = some tok) (htok : tok ≠ "")
    (hsess : findSessionByToken db tok = none) :
    ∃ db' rp, createReport db user body now = .ok (db', rp) ∧
      rp.hasLiveAttendance = false ∧ rp.attendanceCount = 0 ∧
      rp.attendanceDetails = [] ∧ rp.attendanceSessionId = none ∧
      db'.reports = db.reports ++ [rp] ∧
      (∀ rid now2, linkAttendance db rid tok now2 =
        .error (.notFound "Attendance session not found")) ∧
    (ApiError.notFound "Attendance session not found").toStatus = 404 := by
  refine ⟨{ db with reports := db.reports ++ [(newReportBase db user body now)], nextId := db.nextId + 1 },
    newReportBase db user body now, ?_, rfl, rfl, rfl, rfl, rfl, ?_, rfl⟩
  · simp only [createReport, autoLink, htokb, hsess]
    rw [if_neg (by simp [hty, hloc, hdate])]
  · intro rid now2
    simp only [linkAttendance, if_neg htok, hsess]

/-- Every batch iteration produces exactly one outcome: either an inserted id
or an error entry, so the two counters always sum to the number of processed
records. -/
theorem batch_foldl_counts (s : AttendanceSession) (now : Nat) :
    ∀ (records : List BatchRecordInput) (acc : BatchAcc),
      ((records.foldl (batchStep s now) acc).inserted).length +
        ((records.foldl (batchStep s now) acc).errors).length =
      acc.inserted.length + acc.errors.length + records.length := by
  intro records
  induction records with
  | nil => intro acc; simp
  | cons r rs ih =>
    intro acc
    rw [List.foldl_cons, ih]
    cases hdup : findPairRecord acc.db.records s.id r.user_id with
    | some x =>
      simp only [batchStep, hdup, List.length_append, List.length_cons, List.length_nil]
      omega
    | none =>
      simp only [batchStep, hdup, List.length_append, List.length_cons, List.length_nil]
      omega

/-- C5: each batch record is processed independently — a record whose
`(session_id, user_id)` pair already exists is skipped and reported as a
per-record error entry rather than failing the request, the response reports
`{inserted, errors, details}`, the two counters always sum to the input
length, and the concrete three-record scenario with exactly one pre-existing
duplicate yields `inserted = 2, errors = 1` with the duplicate's `user_id` in
`details`. -/
theorem batch_partial_success_counts
    (db : DB) (tok : String) (s : AttendanceSession)
    (r1 r2 r3 : BatchRecordInput) (now : Nat)
    (hsess : findSessionByToken db tok = some s)
    (h31 : r3.user_id ≠ r1.user_id)
    (hdup : findPairRecord db.records s.id r2.user_id ≠ none)
    (hf1 : findPairRecord db.records s.id r1.user_id = none)
    (hf3 : findPairRecord db.records s.id r3.user_id = none) :
    (∃ db' resp, batchUploadAttendance db tok [r1, r2, r3] now = .ok (db', resp) ∧
      resp.inserted = 2 ∧ resp.errors = 1 ∧
      resp.details = some [{ user_id := r2.user_id, error := "Duplicate attendance" }]) ∧
    (∀ (recs : List BatchRecordInput) (now2 : Nat) (db2 : DB) (resp2 : BatchResponse),
      batchUploadAttendance db tok recs now2 = .ok (db2, resp2) →
      resp2.inserted + resp2.errors = recs.length) := by
  obtain ⟨x, hx⟩ := Option.ne_none_iff_exists'.mp hdup
  have hx' : List.find? (pairPred s.id r2.user_id) db.records = some x := hx
  have hf1' : List.find? (pairPred s.id r1.user_id) db.records = none := hf1
  have hf3' : List.find? (pairPred s.id r3.user_id) db.records = none := hf3
  have hstep2 : findPairRecord (db.records ++ [(mkBatchRecord s now db.nextId r1)])
      s.id r2.user_id = some x := by
    rw [findPairRecord, List.find?_append, hx']
    rfl
  have hstep3 : findPairRecord (db.records ++ [(mkBatchRecord s now db.nextId r1)])
      s.id r3.user_id = none := by
    rw [findPairRecord, List.find?_append, hf3']
    have hpp : pairPred s.id r3.user_id (mkBatchRecord s now db.nextId r1) = false := by
      simp only [pairPred, mkBatchRecord, decide_eq_false_iff_not, not_and]
      intro h
      exact fun hu => h31 hu.symm
    simp [List.find?, hpp]
  constructor
  · refine ⟨{ db with records := (db.records ++ [(mkBatchRecord s now db.nextId r1)]) ++ [(mkBatchRecord s now (db.nextId + 1) r3)], nextId := db.nextId + 1 + 1 },
      { inserted := 2, errors := 1, details := some [{ user_id := r2.user_id, error := "Duplicate attendance" }] }, ?_, rfl, rfl, rfl⟩
    simp only [batchUploadAttendance, List.isEmpty_cons, Bool.false_eq_true, if_false,
      hsess, List.foldl_cons, List.foldl_nil]
    simp only [batchStep, hf1]
    simp only [hstep2, hstep3]
    rfl
  · intro recs now2 db2 resp2 hok
    by_cases hemp : recs.isEmpty
    · simp only [batchUploadAttendance, if_pos hemp] at hok
      exact Except.noConfusion hok
    · simp only [batchUploadAttendance, if_neg hemp, hsess, Except.ok.injEq,
        Prod.mk.injEq] at hok
      obtain ⟨h1, h2⟩ := hok
      rw [← h2]
      have := batch_foldl_counts s now2 recs { db := db, inserted := [], errors := [] }
      simp only [List.length_nil] at this
      simpa using this

/-- Looking a report up after an id-preserving per-document update returns the
updated document. -/
theorem findReportById_after_update (db : DB) (rid : Nat) (rp : ReportDoc)
    (g : ReportDoc → ReportDoc) (hid : ∀ q, (g q).id = q.id)
    (hrep : findReportById db rid = some rp) :
    findReportById
      { db with reports := db.reports.map (fun q => if q.id = rid then g q else q) } rid
      = some (if rp.id = rid then g rp else rp) := by
  have hcomp : (fun q : ReportDoc => decide (q.id = rid)) ∘
      (fun q => if q.id = rid then g q else q) =
      (fun q : ReportDoc => decide (q.id = rid)) := by
    funext q
    by_cases h : q.id = rid
    · simp [h, hid]
    · simp [h]
  show (db.reports.map (fun q => if q.id = rid then g q else q)).find?
      (fun q => decide (q.id = rid)) = _
  rw [List.find?_map, hcomp]
  rw [show db.reports.find? (fun q => decide (q.id = rid)) = some rp from hrep]
  rfl

/-- What a successful link-attendance call returns and leaves behind: the
updated report is the snapshot overwrite of the found report, the
sessions/records/users collections are untouched, and the stored report can be
found again under its id. -/
theorem linkAttendance_ok_spec (db : DB) (rid : Nat) (tok : String) (now : Nat)
    (s : AttendanceSession) (rp : ReportDoc)
    (htok : tok ≠ "") (hsess : findSessionByToken db tok = some s)
    (hrep : findReportById db rid = some rp)
    (dbx : DB) (rpx : ReportDoc)
    (hok : linkAttendance db rid tok now = .ok (dbx, rpx)) :
    rpx = linkUpdate s.id (sessionRecords db s.id).length
        ((sessionRecords db s.id).map (buildDetail db.users)) now rp ∧
    dbx.sessions = db.sessions ∧ dbx.records = db.records ∧
    dbx.users = db.users ∧
    findReportById dbx rid = some rpx := by
  have hrep0 : db.reports.find? (fun q => decide (q.id = rid)) = some rp := hrep
  have hrpid : rp.id = rid := by simpa using List.find?_some hrep0
  have hrun : linkAttendance db rid tok now =
      .ok ({ db with reports := db.reports.map (fun q => if q.id = rid then linkUpdate s.id (sessionRecords db s.id).length ((sessionRecords db s.id).map (buildDetail db.users)) now q else q) },
        linkUpdate s.id (sessionRecords db s.id).length
          ((sessionRecords db s.id).map (buildDetail db.users)) now rp) := by
    simp only [linkAttendance, if_neg htok, hsess, hrep]
  rw [hrun] at hok
  injection hok with hok
  rw [Prod.mk.injEq] at hok
  obtain ⟨hfst, hsnd⟩ := hok
  refine ⟨hsnd.symm, ?_, ?_, ?_, ?_⟩
  · rw [← hfst]
  · rw [← hfst]
  · rw [← hfst]
  · rw [← hfst, ← hsnd]
    have h := findReportById_after_update db rid rp
      (linkUpdate s.id (sessionRecords db s.id).length
        ((sessionRecords db s.id).map (buildDetail db.users)) now)
      (fun q => rfl) hrep
    rw [if_pos hrpid] at h
    exact h

/-- C6: linking the same session to the same report twice, with no attendance
changes in between, leaves the report's attendance snapshot fields exactly as
after one link — the second call recomputes and overwrites the same values
(only `updatedAt` differs, via the `now` clock argument). -/
theorem link_attendance_idempotent
    (db : DB) (rid : Nat) (tok : String) (now1 now2 : Nat)
    (s : AttendanceSession) (rp : ReportDoc)
    (htok : tok ≠ "") (hsess : findSessionByToken db tok = some s)
    (hrep : findReportById db rid = some rp)
    (db1 db2 : DB) (rp1 rp2 : ReportDoc)
    (h1 : linkAttendance db rid tok now1 = .ok (db1, rp1))
    (h2 : linkAttendance db1 rid tok now2 = .ok (db2, rp2)) :
    rp2.attendanceCount = rp1.attendanceCount ∧
    rp2.participants = rp1.participants ∧
    rp2.attendanceDetails = rp1.attendanceDetails ∧
    rp2.hasLiveAttendance = rp1.hasLiveAttendance ∧
    rp2.attendanceSessionId = rp1.attendanceSessionId := by
  obtain ⟨hrp1, hs1, hr1, hu1, hrep1⟩ :=
    linkAttendance_ok_spec db rid tok now1 s rp htok hsess hrep db1 rp1 h1
  have hsess1 : findSessionByToken db1 tok = some s := by
    rw [findSessionByToken, hs1]
    exact hsess
  obtain ⟨hrp2, _, _, _, _⟩ :=
    linkAttendance_ok_spec db1 rid tok now2 s rp1 htok hsess1 hrep1 db2 rp2 h2
  have hsr : sessionRecords db1 s.id = sessionRecords db s.id := by
    rw [sessionRecords, hr1]
    rfl
  rw [hsr, hu1, hrp1] at hrp2
  rw [hrp2, hrp1]
  exact ⟨rfl, rfl, rfl, rfl, rfl⟩

/-- C7: the analytics rollup sums to the whole — the four status counts add
up to the total report count, and the organization counts add up to the total
report count (every report contributes to exactly one status bucket and one
organization bucket). -/
theorem analytics_rollup_sums (reports : List ReportDoc) :
    statusCount reports ReportStatus.draft + statusCount reports ReportStatus.pending +
      statusCount reports ReportStatus.accepted + statusCount reports ReportStatus.rejected
      = reports.length ∧
    ((organizationCounts reports).map Prod.snd).sum = reports.length := by
  constructor
  · induction reports with
    | nil => rfl
    | cons r rs ih =>
      simp only [statusCount, List.filter_cons, List.length_cons] at ih ⊢
      cases h : r.status <;> simp [h] <;> omega
  · rw [organizationCounts, List.map_map]
    have h := List.sum_map_count_dedup_eq_length (reports.map orgKey)
    simpa [Function.comp] using h

/-- An outside caller (not the session's trainer) used in the ownership
counterexample. -/
def outsider : AuthUser :=
  { id := 2, name := "Other", email := "other@example.org", phone := none, role := "user" }

/-- C8 (counterexample): `raceSession` is owned by trainer 1, yet the end
handler called by user 2 succeeds and transitions the session to `completed` —
the handler never compares the caller with `trainer_id`. -/
theorem end_session_no_ownership_check_cex :
    outsider.id ≠ raceSession.trainer_id ∧
    ∃ db', endSession raceDb0 outsider "sess_race" 9 = .ok db' ∧
      (findSessionByToken db' "sess_race").map AttendanceSession.status =
        some SessionStatus.completed := by
  refine ⟨by decide, _, rfl, by decide⟩

/-- C8 (amended): the end-session endpoint performs no ownership check — for
ANY authenticated caller, ending an existing session succeeds and transitions
it to `completed` with `ended_at` set, whether or not the caller is the
session's trainer. -/
theorem end_session_any_caller (db : DB) (user : AuthUser) (tok : String)
    (s : AttendanceSession) (now : Nat)
    (hfind : findSessionByToken db tok = some s) :
    ∃ db', endSession db user tok now = .ok db' ∧
      ∀ t ∈ db'.sessions, t.id = s.id →
        t.status = SessionStatus.completed ∧ t.ended_at = some now := by
  refine ⟨{ db with sessions := db.sessions.map (fun t => if t.id = s.id then { t with status := SessionStatus.completed, ended_at := some now } else t), auditLog := db.auditLog ++ [({ action := "attendance_session_ended", actor_id := user.id, entity_id := s.id } : AuditEntry)] },
    ?_, ?_⟩
  · simp only [endSession, hfind]
  · intro t ht hid
    rw [List.mem_map] at ht
    obtain ⟨t0, ht0, rfl⟩ := ht
    by_cases h0 : t0.id = s.id
    · simp [h0]
    · rw [if_neg h0] at hid ⊢
      exact absurd hid h0

/-- C9: creating a session with a valid `training_id`, `mode = "gps"` and
`radius_m` omitted succeeds and persists a session whose `radius_m` is the
default 30. -/
theorem create_session_gps_default_radius
    (db : DB) (user : AuthUser) (training_id : String) (ssid : Option String)
    (meta : SessionMeta) (tok : String) (now : Nat)
    (hid : training_id ≠ "") :
    ∃ db' s, createSession db user training_id "gps" none ssid meta tok now = .ok (db', s) ∧
      s.radius_m = 30 ∧ s.mode = Mode.gps ∧ s.status = SessionStatus.active ∧
      s ∈ db'.sessions := by
  refine ⟨{ db with sessions := db.sessions ++ [({ id := db.nextId, training_id := training_id, trainer_id := user.id, session_token := tok, mode := Mode.gps, radius_m := 30, hotspot_ssid := ssid, started_at := now, ended_at := none, status := SessionStatus.active, metadata := meta } : AttendanceSession)], nextId := db.nextId + 1, auditLog := db.auditLog ++ [({ action := "attendance_session_started", actor_id := user.id, entity_id := db.nextId } : AuditEntry)] },
    { id := db.nextId, training_id := training_id, trainer_id := user.id, session_token := tok, mode := Mode.gps, radius_m := 30, hotspot_ssid := ssid, started_at := now, ended_at := none, status := SessionStatus.active, metadata := meta },
    ?_, rfl, rfl, rfl, ?_⟩
  · rw [createSession, if_neg (show ¬(training_id = "" ∨ ("gps" : String) = "") from by simp [hid])]
    rfl
  · simp

/-- C10: a check-in request that omits `method` inherits the session's mode —
on the single mark path the persisted record's `method` equals the session's
`mode`, and on the batch path the record constructed for a `method`-less input
likewise carries the session's `mode`. -/
theorem method_defaults_to_session_mode
    (db : DB) (tok : String) (s : AttendanceSession) (user : AuthUser)
    (body : MarkBody) (now : Nat) (db' : DB) (r : AttendanceRecord)
    (hm : body.method = none)
    (hsess : findActiveSession db tok = some s)
    (hok : markAttendance db tok user body now = .ok (db', r)) :
    r.method = s.mode ∧
    ∀ (now2 id2 : Nat) (rin : BatchRecordInput), rin.method = none →
      (mkBatchRecord s now2 id2 rin).method = s.mode := by
  constructor
  · cases hdup : findPairRecord db.records s.id user.id with
    | some x =>
      simp only [markAttendance, hsess, hdup] at hok
      exact Except.noConfusion hok
    | none =>
      have hrun : markAttendance db tok user body now =
          .ok (markInsert db s user body now) := by
        simp only [markAttendance, hsess, hdup]
      rw [hrun] at hok
      injection hok with hok
      have h2 : (markInsert db s user body now).2 = r := congrArg Prod.snd hok
      rw [← h2]
      show body.method.getD s.mode = s.mode
      rw [hm]
      rfl
  · intro now2 id2 rin h
    show rin.method.getD s.mode = s.mode
    rw [h]
    rfl

/-- A session that has already been ended, for the asymmetry witness. -/
def demoEndedSession : AttendanceSession :=
  { raceSession with id := 10, session_token := "sess_done", status := SessionStatus.completed }

/-- A stored draft report, for the link witnesses. -/
def demoReport : ReportDoc :=
  { id := 20, userId := 1, userOrganization := "NDMA", trainingType := "first-aid",
    participants := 5, hasLiveAttendance := false, attendanceSessionId := none,
    attendanceCount := 0, attendanceDetails := [], status := ReportStatus.draft,
    createdAt := 0, updatedAt := 0 }

/-- A pre-existing attendance record for user 8 in `raceSession`. -/
def demoRecord : AttendanceRecord :=
  mkBatchRecord raceSession 2 30 { user_id := 8, user_name := "Existing" }

/-- Concrete database state used by the witnesses: one active session, one
completed session, one attendance record, one report. -/
def demoDb : DB :=
  { sessions := [raceSession, demoEndedSession], records := [demoRecord],
    reports := [demoReport], users := [], auditLog := [], nextId := 40 }

/-- C2 (witness): the asymmetry theorem applied to the completed demo session
and a fresh batch record for user 9. -/
theorem inactive_session_mark_fails_batch_succeeds_witness :
    markAttendance demoDb "sess_done" raceUser {} 5 =
      .error (.notFound "Session not found or expired") ∧
    (ApiError.notFound "Session not found or expired").toStatus = 404 ∧
    batchUploadAttendance demoDb "sess_done"
        [{ user_id := 9, user_name := "New" }] 5 =
      .ok ({ demoDb with
             records := demoDb.records ++
               [(mkBatchRecord demoEndedSession 5 demoDb.nextId { user_id := 9, user_name := "New" })]
             nextId := demoDb.nextId + 1 },
           { inserted := 1, errors := 0, details := none }) :=
  inactive_session_mark_fails_batch_succeeds demoDb "sess_done" demoEndedSession
    raceUser {} { user_id := 9, user_name := "New" } 5
    (by decide) (by decide) (by decide) (by decide)

/-- C3 (witness): linking the active demo session (holding one record) to the
demo report. -/
theorem link_attendance_sets_counts_witness :
    ∃ db' rp', linkAttendance demoDb 20 "sess_race" 6 = .ok (db', rp') ∧
      rp'.attendanceCount = (sessionRecords demoDb raceSession.id).length ∧
      rp'.participants = ((sessionRecords demoDb raceSession.id).length : Int) ∧
      rp'.attendanceDetails =
        (sessionRecords demoDb raceSession.id).map (buildDetail demoDb.users) ∧
      rp'.hasLiveAttendance = true :=
  link_attendance_sets_counts demoDb 20 "sess_race" 6 raceSession demoReport
    (by decide) (by decide) (by decide)

/-- C4 (witness): creating a report against an unknown session token. -/
theorem create_report_unknown_session_silent_skip_witness :
    ∃ db' rp, createReport demoDb raceUser
        { trainingType := "first-aid", location := "HQ", date := "2024-01-01",
          session_token := some "sess_missing" } 6 = .ok (db', rp) ∧
      rp.hasLiveAttendance = false ∧ rp.attendanceCount = 0 ∧
      rp.attendanceDetails = [] ∧ rp.attendanceSessionId = none ∧
      db'.reports = demoDb.reports ++ [rp] ∧
      (∀ rid now2, linkAttendance demoDb rid "sess_missing" now2 =
        .error (.notFound "Attendance session not found")) ∧
    (ApiError.notFound "Attendance session not found").toStatus = 404 :=
  create_report_unknown_session_silent_skip demoDb raceUser
    { trainingType := "first-aid", location := "HQ", date := "2024-01-01",
      session_token := some "sess_missing" } 6 "sess_missing"
    (by decide) (by decide) (by decide) rfl (by decide) (by decide)

/-- C5 (witness): uploading three records into the demo session where user 8
already holds a record. -/
theorem batch_partial_success_counts_witness :
    (∃ db' resp, batchUploadAttendance demoDb "sess_race"
        [{ user_id := 7, user_name := "A" }, { user_id := 8, user_name := "B" },
         { user_id := 9, user_name := "C" }] 5 = .ok (db', resp) ∧
      resp.inserted = 2 ∧ resp.errors = 1 ∧
      resp.details = some [{ user_id := 8, error := "Duplicate attendance" }]) ∧
    (∀ (recs : List BatchRecordInput) (now2 : Nat) (db2 : DB) (resp2 : BatchResponse),
      batchUploadAttendance demoDb "sess_race" recs now2 = .ok (db2, resp2) →
      resp2.inserted + resp2.errors = recs.length) :=
  batch_partial_success_counts demoDb "sess_race" raceSession
    { user_id := 7, user_name := "A" } { user_id := 8, user_name := "B" }
    { user_id := 9, user_name := "C" } 5
    (by decide) (by decide) (by decide) (by decide) (by decide)

/-- Result of the first demo link call. -/
def demoLink1 : DB × ReportDoc :=
  match linkAttendance demoDb 20 "sess_race" 6 with
  | .ok p => p
  | .error _ => (demoDb, demoReport)

/-- Result of the second demo link call on the already-linked state. -/
def demoLink2 : DB × ReportDoc :=
  match linkAttendance demoLink1.1 20 "sess_race" 7 with
  | .ok p => p
  | .error _ => (demoLink1.1, demoReport)

/-- C6 (witness): re-linking the demo session to the demo report leaves the
snapshot fields unchanged. -/
theorem link_attendance_idempotent_witness :
    (demoLink2.2).attendanceCount = (demoLink1.2).attendanceCount ∧
    (demoLink2.2).participants = (demoLink1.2).participants ∧
    (demoLink2.2).attendanceDetails = (demoLink1.2).attendanceDetails ∧
    (demoLink2.2).hasLiveAttendance = (demoLink1.2).hasLiveAttendance ∧
    (demoLink2.2).attendanceSessionId = (demoLink1.2).attendanceSessionId :=
  link_attendance_idempotent demoDb 20 "sess_race" 6 7 raceSession demoReport
    (by decide) (by decide) (by decide)
    demoLink1.1 demoLink2.1 demoLink1.2 demoLink2.2 (by rfl) (by rfl)

/-- C8 (witness): the amended theorem applied to the demo state and the
non-owner caller. -/
theorem end_session_any_caller_witness :
    ∃ db', endSession demoDb outsider "sess_race" 9 = .ok db' ∧
      ∀ t ∈ db'.sessions, t.id = raceSession.id →
        t.status = SessionStatus.completed ∧ t.ended_at = some 9 :=
  end_session_any_caller demoDb outsider "sess_race" raceSession 9 (by decide)

/-- C9 (witness): creating a gps session with `radius_m` omitted on the demo
state. -/
theorem create_session_gps_default_radius_witness :
    ∃ db' s, createSession demoDb raceUser "training-1" "gps" none none {} "sess_new" 11 =
        .ok (db', s) ∧
      s.radius_m = 30 ∧ s.mode = Mode.gps ∧ s.status = SessionStatus.active ∧
      s ∈ db'.sessions :=
  create_session_gps_default_radius demoDb raceUser "training-1" none {} "sess_new" 11
    (by decide)

/-- Result of the demo mark call with `method` omitted. -/
def demoMark : DB × AttendanceRecord :=
  match markAttendance demoDb "sess_race" raceUser {} 5 with
  | .ok p => p
  | .error _ => (demoDb, demoRecord)

/-- C10 (witness): the record persisted for the method-less demo mark call
carries the session's mode, and so does the batch-path constructor. -/
theorem method_defaults_to_session_mode_witness :
    (demoMark.2).method = raceSession.mode ∧
    ∀ (now2 id2 : Nat) (rin : BatchRecordInput), rin.method = none →
      (mkBatchRecord raceSession now2 id2 rin).method = raceSession.mode :=
  method_defaults_to_session_mode demoDb "sess_race" raceSession raceUser {} 5
    demoMark.1 demoMark.2 rfl (by decide) (by rfl)

end NDMA
